import Mathlib

/-!
Shallow embedding of `src/Start.cpp` (repository CPP-Traits), a single-file
demonstration of compile-time predicate-gated dispatch: a `SimpleClass` whose
overload pairs (`hello`, `cleaner`, `another`, `asArgument`) are gated on
`std::is_class<T>` via `std::enable_if`, plus the unconditional templates
`amIAClass`, `amIAClass2`, `nullExample`, `nullExample2`, and the `main`
routine that exercises them.

Modelling choices:
 - A C++ static type is a `CppType`; `std::string` is the constructor
   `stdString`, a string literal of N chars plus the terminator is
   `charArray (N+1)` (the deduced `char[N+1]`), and further class and
   non-class types are represented by `classType` / `intType` so that the
   universally quantified claims range over both categories.
 - A runtime value is modelled by the text that `operator<<` renders for it;
   dispatch in the source never inspects this text, only the static type.
 - `std::enable_if_t<b, X>` is `enable_if b : Option Unit`: `some ()` when
   the condition holds (the member `type` exists and substitution succeeds),
   `none` when it does not (substitution failure, the overload drops out).
 - Each method is a function from the static type and the rendered argument
   to the list of output lines it emits; an overload contributes its line
   exactly when its gate substitution succeeds, so the list length records
   how many candidates fired.
 - Stream state (`std::boolalpha` flag and the text written so far) is a
   `StreamState`; the `...Run` functions are the stateful semantics of the
   method calls, and `cppMain` is `main`.
-/

/-- The static C++ types relevant to the program: `std::string`, the
character-array types of string literals, a sample non-class fundamental
type, and arbitrary further user class types. -/
inductive CppType where
  | stdString : CppType
  | charArray : Nat → CppType
  | intType : CppType
  | classType : String → CppType
deriving DecidableEq

/-- `std::is_class<T>::value`: true exactly for class types
(`std::string` and user-defined classes), false for arrays and
fundamental types. -/
def is_class : CppType → Bool
  | CppType.stdString => true
  | CppType.classType _ => true
  | CppType.charArray _ => false
  | CppType.intType => false

/-- `std::is_class_v<T>`, defined in the standard library as
`std::is_class<T>::value`. -/
def is_class_v (T : CppType) : Bool := is_class T

/-- `std::enable_if_t<b, X>`: the nested `type` member exists (`some ()`)
iff `b` holds; otherwise substitution fails (`none`). -/
def enable_if (b : Bool) : Option Unit :=
  if b then some () else none

/-- Alias `IsClass<T> = std::enable_if_t<std::is_class_v<T>, std::nullptr_t>`
from the source. -/
def IsClass (T : CppType) : Option Unit := enable_if (is_class_v T)

/-- Alias `IsNotClass<T> = std::enable_if_t<!std::is_class_v<T>, std::nullptr_t>`
from the source. -/
def IsNotClass (T : CppType) : Option Unit := enable_if (!is_class_v T)

/-- Alias `IsClassV<T> = std::enable_if_t<std::is_class_v<T>, void>`
from the source. -/
def IsClassV (T : CppType) : Option Unit := enable_if (is_class_v T)

/-- Alias `IsNotClassV<T> = std::enable_if_t<!std::is_class_v<T>, void>`
from the source. -/
def IsNotClassV (T : CppType) : Option Unit := enable_if (!is_class_v T)

/-- `operator<<` rendering of a `bool`: the words `true`/`false` when the
stream has `std::boolalpha` set, the digits `1`/`0` otherwise. -/
def showBool (boolalpha : Bool) (b : Bool) : String :=
  if boolalpha then (if b then "true" else "false")
  else (if b then "1" else "0")

/-- The `SimpleClass` of the source: no data members, only const template
methods. -/
structure SimpleClass where

/-- `SimpleClass::amIAClass`: prints the value and `std::is_class<T>::value`
on one line; the rendering of the boolean depends on the boolalpha flag of
the stream. -/
def SimpleClass.amIAClass (boolalpha : Bool) (T : CppType) (value : String) : List String :=
  ["Is " ++ value ++ " << a class: " ++ showBool boolalpha (is_class T)]

/-- `SimpleClass::amIAClass2`: identical to `amIAClass` except it reads the
predicate through `std::is_class_v<T>`. -/
def SimpleClass.amIAClass2 (boolalpha : Bool) (T : CppType) (value : String) : List String :=
  ["Is " ++ value ++ " << a class: " ++ showBool boolalpha (is_class_v T)]

/-- `SimpleClass::nullExample`: a single always-viable template, prints one
fixed-label line. -/
def SimpleClass.nullExample (T : CppType) (value : String) : List String :=
  ["Null Works, " ++ value]

/-- `SimpleClass::nullExample2`: same body as `nullExample` with the other
spelling of the inert second template parameter. -/
def SimpleClass.nullExample2 (T : CppType) (value : String) : List String :=
  ["Null Works, " ++ value]

/-- The two `SimpleClass::hello` overloads: the first is gated on
`std::enable_if_t<std::is_class_v<T>, std::nullptr_t> = nullptr` and prints
`Hello, <name>`; the second on the negated condition and prints
`Goodbye, <name>`. Each overload contributes its line exactly when its gate
substitution succeeds. -/
def SimpleClass.hello (T : CppType) (name : String) : List String :=
  (if (enable_if (is_class_v T)).isSome then ["Hello, " ++ name] else []) ++
  (if (enable_if (!is_class_v T)).isSome then ["Goodbye, " ++ name] else [])

/-- The two `SimpleClass::cleaner` overloads, gated through the aliases
`IsClass<T>` / `IsNotClass<T>`; labels `Is Class` and `Not Class`. -/
def SimpleClass.cleaner (T : CppType) (name : String) : List String :=
  (if (IsClass T).isSome then ["Is Class, " ++ name] else []) ++
  (if (IsNotClass T).isSome then ["Not Class, " ++ name] else [])

/-- The two `SimpleClass::another` overloads, gated through the return-type
aliases `IsClassV<T>` / `IsNotClassV<T>`; labels `Is Class` and
`Is not Class`. -/
def SimpleClass.another (T : CppType) (name : String) : List String :=
  (if (IsClassV T).isSome then ["Is Class, " ++ name] else []) ++
  (if (IsNotClassV T).isSome then ["Is not Class, " ++ name] else [])

/-- The two `SimpleClass::asArgument` overloads with the gate as the type of
an unnamed second parameter (`IsClass<T> = nullptr` resp.
`IsNotClass<T> = nullptr`); this version models an explicit second argument
(the only possible value of `std::nullptr_t` is `()`). -/
def SimpleClass.asArgumentWith (T : CppType) (name : String) (arg : Unit) : List String :=
  (if (IsClass T).isSome then ["AsArg: Is Class, " ++ name] else []) ++
  (if (IsNotClass T).isSome then ["AsArg: Is Not Class, " ++ name] else [])

/-- `SimpleClass::asArgument` invoked with the second argument defaulted:
the default argument supplies `nullptr`. -/
def SimpleClass.asArgument (T : CppType) (name : String) : List String :=
  SimpleClass.asArgumentWith T name ()

/-- The observable stream state: the `std::boolalpha` flag of `cout` and the
lines written so far. -/
structure StreamState where
  boolalpha : Bool
  out : List String
deriving DecidableEq

/-- Writing a list of lines to the stream. -/
def emit (lines : List String) (s : StreamState) : StreamState :=
  { s with out := s.out ++ lines }

/-- `cout << std::boolalpha`. -/
def setBoolalpha (s : StreamState) : StreamState :=
  { s with boolalpha := true }

/-- Stateful semantics of a call `sc.amIAClass(value)`. -/
def amIAClassRun (T : CppType) (value : String) (s : StreamState) : StreamState :=
  emit (SimpleClass.amIAClass s.boolalpha T value) s

/-- Stateful semantics of a call `sc.amIAClass2(value)`. -/
def amIAClass2Run (T : CppType) (value : String) (s : StreamState) : StreamState :=
  emit (SimpleClass.amIAClass2 s.boolalpha T value) s

/-- Stateful semantics of a call `sc.nullExample(value)`. -/
def nullExampleRun (T : CppType) (value : String) (s : StreamState) : StreamState :=
  emit (SimpleClass.nullExample T value) s

/-- Stateful semantics of a call `sc.nullExample2(value)`. -/
def nullExample2Run (T : CppType) (value : String) (s : StreamState) : StreamState :=
  emit (SimpleClass.nullExample2 T value) s

/-- Stateful semantics of a call `sc.hello(name)`. -/
def helloRun (T : CppType) (name : String) (s : StreamState) : StreamState :=
  emit (SimpleClass.hello T name) s

/-- Stateful semantics of a call `sc.cleaner(name)`. -/
def cleanerRun (T : CppType) (name : String) (s : StreamState) : StreamState :=
  emit (SimpleClass.cleaner T name) s

/-- Stateful semantics of a call `sc.another(name)`. -/
def anotherRun (T : CppType) (name : String) (s : StreamState) : StreamState :=
  emit (SimpleClass.another T name) s

/-- Stateful semantics of a call `sc.asArgument(name)` with the defaulted
second argument. -/
def asArgumentRun (T : CppType) (name : String) (s : StreamState) : StreamState :=
  emit (SimpleClass.asArgument T name) s

/-- Stateful semantics of a call `sc.asArgument(name, nullptr)` with the
second argument spelled out. -/
def asArgumentWithRun (T : CppType) (name : String) (arg : Unit) (s : StreamState) : StreamState :=
  emit (SimpleClass.asArgumentWith T name arg) s

/-- `main` of `Start.cpp`: ignores its two parameters (they are unnamed in
the source), sets `boolalpha`, performs the thirteen calls in source order,
and returns 0. The result pairs the final stream state with the exit
code. -/
def cppMain (_ : Int) (_ : List String) : StreamState × Int :=
  let s : StreamState := { boolalpha := false, out := [] }
  let s := setBoolalpha s
  let s := amIAClassRun CppType.stdString "A String" s
  let s := amIAClassRun (CppType.charArray 9) "Constant" s
  let s := amIAClass2Run (CppType.charArray 9) "Constant" s
  let s := nullExampleRun (CppType.charArray 10) "Some Null" s
  let s := nullExample2Run (CppType.charArray 6) "Again" s
  let s := helloRun CppType.stdString "Joe" s
  let s := helloRun (CppType.charArray 6) "Again" s
  let s := cleanerRun CppType.stdString "Joe" s
  let s := cleanerRun (CppType.charArray 6) "Again" s
  let s := anotherRun CppType.stdString "Joe" s
  let s := anotherRun (CppType.charArray 6) "Again" s
  let s := asArgumentWithRun CppType.stdString "Joe" () s
  let s := asArgumentRun (CppType.charArray 6) "Again" s
  (s, 0)

/-! Helper lemmas (shared; not claim theorems). -/

/-- Appending the same text to two literals of different length gives
different strings. -/
theorem append_ne_of_length_ne (a b v : String) (h : a.length ≠ b.length) :
    a ++ v ≠ b ++ v := by
  intro hv
  apply h
  have hl := congrArg String.length hv
  simp [String.length_append] at hl
  omega

/-- `(enable_if b).isSome` is just `b`. -/
theorem enable_if_isSome (b : Bool) : (enable_if b).isSome = b := by
  cases b <;> rfl

/-! The claim theorems. -/

/-- Claim C1: for every type T and every value v, each of the
predicate-gated dispatchers (hello, cleaner, another, asArgument) emits
exactly one output line; the emitted line is the OP_TRUE-labeled one iff T
is class-like and the OP_FALSE-labeled one iff T is not class-like — never
both lines and never neither. -/
theorem C1_gated_dispatch_total_exclusive (T : CppType) (v : String) :
    (SimpleClass.hello T v).length = 1 ∧
    (SimpleClass.hello T v = ["Hello, " ++ v] ↔ is_class T = true) ∧
    (SimpleClass.hello T v = ["Goodbye, " ++ v] ↔ is_class T = false) ∧
    (SimpleClass.cleaner T v).length = 1 ∧
    (SimpleClass.cleaner T v = ["Is Class, " ++ v] ↔ is_class T = true) ∧
    (SimpleClass.cleaner T v = ["Not Class, " ++ v] ↔ is_class T = false) ∧
    (SimpleClass.another T v).length = 1 ∧
    (SimpleClass.another T v = ["Is Class, " ++ v] ↔ is_class T = true) ∧
    (SimpleClass.another T v = ["Is not Class, " ++ v] ↔ is_class T = false) ∧
    (SimpleClass.asArgument T v).length = 1 ∧
    (SimpleClass.asArgument T v = ["AsArg: Is Class, " ++ v] ↔ is_class T = true) ∧
    (SimpleClass.asArgument T v = ["AsArg: Is Not Class, " ++ v] ↔ is_class T = false) := by
  have h1 : ("Hello, " : String) ++ v ≠ "Goodbye, " ++ v :=
    append_ne_of_length_ne _ _ _ (by decide)
  have h2 : ("Is Class, " : String) ++ v ≠ "Not Class, " ++ v :=
    append_ne_of_length_ne _ _ _ (by decide)
  have h3 : ("Is Class, " : String) ++ v ≠ "Is not Class, " ++ v :=
    append_ne_of_length_ne _ _ _ (by decide)
  have h4 : ("AsArg: Is Class, " : String) ++ v ≠ "AsArg: Is Not Class, " ++ v :=
    append_ne_of_length_ne _ _ _ (by decide)
  cases hc : is_class T <;>
    simp [SimpleClass.hello, SimpleClass.cleaner, SimpleClass.another,
      SimpleClass.asArgument, SimpleClass.asArgumentWith, IsClass, IsNotClass,
      IsClassV, IsNotClassV, is_class_v, enable_if, hc, h1, h2, h3, h4,
      Ne.symm h1, Ne.symm h2, Ne.symm h3, Ne.symm h4]

/-- Claim C2 as stated is false: at the class-like type std::string with
value Joe, the hello pair emits Hello, Joe while the cleaner pair emits
Is Class, Joe — the output lines of the alternative forms are not
byte-identical. -/
theorem C2_counterexample :
    SimpleClass.hello CppType.stdString "Joe" ≠
      SimpleClass.cleaner CppType.stdString "Joe" := by
  decide

/-- Claim C2 (amended): for every (type, value) pair, the four syntactic
forms of the gated dispatcher (hello, cleaner, another, asArgument) each
emit exactly one line and all select the same branch — the TRUE-labeled
branch exactly when T is class-like — but each pair uses its own label
text, so the emitted bytes agree within a pair, not across pairs. -/
theorem C2_amended_same_branch (T : CppType) (v : String) :
    SimpleClass.hello T v = [(if is_class T then "Hello, " else "Goodbye, ") ++ v] ∧
    SimpleClass.cleaner T v = [(if is_class T then "Is Class, " else "Not Class, ") ++ v] ∧
    SimpleClass.another T v = [(if is_class T then "Is Class, " else "Is not Class, ") ++ v] ∧
    SimpleClass.asArgument T v
      = [(if is_class T then "AsArg: Is Class, " else "AsArg: Is Not Class, ") ++ v] := by
  cases hc : is_class T <;>
    simp [SimpleClass.hello, SimpleClass.cleaner, SimpleClass.another,
      SimpleClass.asArgument, SimpleClass.asArgumentWith, IsClass, IsNotClass,
      IsClassV, IsNotClassV, is_class_v, enable_if, hc]

/-- Claim C3: the two-overload dispatcher hello on the std::string value
Joe prints Hello, Joe and on the non-class literal Again prints
Goodbye, Again; these are also lines 6 and 7 of the main routine's
output. -/
theorem C3_hello_concrete :
    SimpleClass.hello CppType.stdString "Joe" = ["Hello, Joe"] ∧
    SimpleClass.hello (CppType.charArray 6) "Again" = ["Goodbye, Again"] ∧
    ((cppMain 1 []).1).out[5]? = some "Hello, Joe" ∧
    ((cppMain 1 []).1).out[6]? = some "Goodbye, Again" := by
  decide

/-- Claim C4: with boolalpha set (as main sets it before any call),
amIAClass on the std::string value A String reports the classification as
the word true, and on the raw literal Constant as the word false; these
are lines 1 and 2 of the main routine's output, and the boolean renders
as words, not digits. -/
theorem C4_amIAClass_concrete :
    SimpleClass.amIAClass true CppType.stdString "A String"
      = ["Is A String << a class: true"] ∧
    SimpleClass.amIAClass true (CppType.charArray 9) "Constant"
      = ["Is Constant << a class: false"] ∧
    ((cppMain 1 []).1).out[0]? = some "Is A String << a class: true" ∧
    ((cppMain 1 []).1).out[1]? = some "Is Constant << a class: false" ∧
    showBool true true = "true" ∧ showBool true false = "false" := by
  decide

/-- Claim C6: branch selection depends only on the static type, never on
the value: for any two values of the same type, each dispatcher emits a
line with the same label text, followed by the respective value. -/
theorem C6_branch_depends_only_on_type (T : CppType) (v1 v2 : String) :
    ∃ lh lc la lg : String,
      SimpleClass.hello T v1 = [lh ++ v1] ∧ SimpleClass.hello T v2 = [lh ++ v2] ∧
      SimpleClass.cleaner T v1 = [lc ++ v1] ∧ SimpleClass.cleaner T v2 = [lc ++ v2] ∧
      SimpleClass.another T v1 = [la ++ v1] ∧ SimpleClass.another T v2 = [la ++ v2] ∧
      SimpleClass.asArgument T v1 = [lg ++ v1] ∧
      SimpleClass.asArgument T v2 = [lg ++ v2] := by
  cases hc : is_class T
  · refine ⟨"Goodbye, ", "Not Class, ", "Is not Class, ", "AsArg: Is Not Class, ", ?_⟩
    simp [SimpleClass.hello, SimpleClass.cleaner, SimpleClass.another,
      SimpleClass.asArgument, SimpleClass.asArgumentWith, IsClass, IsNotClass,
      IsClassV, IsNotClassV, is_class_v, enable_if, hc]
  · refine ⟨"Hello, ", "Is Class, ", "Is Class, ", "AsArg: Is Class, ", ?_⟩
    simp [SimpleClass.hello, SimpleClass.cleaner, SimpleClass.another,
      SimpleClass.asArgument, SimpleClass.asArgumentWith, IsClass, IsNotClass,
      IsClassV, IsNotClassV, is_class_v, enable_if, hc]

/-- Claim C7: invoking a dispatcher twice in sequence with equal values of
the same type appends two identical output lines to the stream; stated for
each of the four gated dispatchers. -/
theorem C7_idempotent_double_call (T : CppType) (v1 v2 : String)
    (s : StreamState) (h : v1 = v2) :
    (∃ l, (helloRun T v2 (helloRun T v1 s)).out = s.out ++ [l, l]) ∧
    (∃ l, (cleanerRun T v2 (cleanerRun T v1 s)).out = s.out ++ [l, l]) ∧
    (∃ l, (anotherRun T v2 (anotherRun T v1 s)).out = s.out ++ [l, l]) ∧
    (∃ l, (asArgumentRun T v2 (asArgumentRun T v1 s)).out = s.out ++ [l, l]) := by
  subst h
  cases hc : is_class T
  · refine ⟨⟨"Goodbye, " ++ v1, ?_⟩, ⟨"Not Class, " ++ v1, ?_⟩,
      ⟨"Is not Class, " ++ v1, ?_⟩, ⟨"AsArg: Is Not Class, " ++ v1, ?_⟩⟩ <;>
      simp [helloRun, cleanerRun, anotherRun, asArgumentRun, emit,
        SimpleClass.hello, SimpleClass.cleaner, SimpleClass.another,
        SimpleClass.asArgument, SimpleClass.asArgumentWith, IsClass, IsNotClass,
        IsClassV, IsNotClassV, is_class_v, enable_if, hc]
  · refine ⟨⟨"Hello, " ++ v1, ?_⟩, ⟨"Is Class, " ++ v1, ?_⟩,
      ⟨"Is Class, " ++ v1, ?_⟩, ⟨"AsArg: Is Class, " ++ v1, ?_⟩⟩ <;>
      simp [helloRun, cleanerRun, anotherRun, asArgumentRun, emit,
        SimpleClass.hello, SimpleClass.cleaner, SimpleClass.another,
        SimpleClass.asArgument, SimpleClass.asArgumentWith, IsClass, IsNotClass,
        IsClassV, IsNotClassV, is_class_v, enable_if, hc]

/-- Witness for claim C7 at type std::string, value Joe, starting from the
empty stream. -/
theorem C7_idempotent_double_call_witness :
    (∃ l, (helloRun CppType.stdString "Joe"
      (helloRun CppType.stdString "Joe"
        { boolalpha := true, out := [] })).out = [l, l]) ∧
    (∃ l, (cleanerRun CppType.stdString "Joe"
      (cleanerRun CppType.stdString "Joe"
        { boolalpha := true, out := [] })).out = [l, l]) ∧
    (∃ l, (anotherRun CppType.stdString "Joe"
      (anotherRun CppType.stdString "Joe"
        { boolalpha := true, out := [] })).out = [l, l]) ∧
    (∃ l, (asArgumentRun CppType.stdString "Joe"
      (asArgumentRun CppType.stdString "Joe"
        { boolalpha := true, out := [] })).out = [l, l]) :=
  C7_idempotent_double_call CppType.stdString "Joe" "Joe"
    { boolalpha := true, out := [] } rfl

/-- Claim C8: the program has a single entry routine; it ignores its two
(unnamed) parameters, so its behavior does not depend on any argument,
and it always returns exit code 0. Totality of the Lean function gives
termination on every run. -/
theorem C8_main_exit_zero (a1 a2 : Int) (v1 v2 : List String) :
    (cppMain a1 v1).2 = 0 ∧ cppMain a1 v1 = cppMain a2 v2 :=
  ⟨rfl, rfl⟩

/-- Claim C9: every method of SimpleClass only appends to standard output:
the SimpleClass object carries no data (any two instances are equal), the
boolalpha flag of the stream is untouched, and the output written before
the call is still there, with the new lines after it. Stated for all nine
callable methods. -/
theorem C9_methods_only_append_output (T : CppType) (v : String)
    (s : StreamState) (c1 c2 : SimpleClass) :
    c1 = c2 ∧
    (amIAClassRun T v s).boolalpha = s.boolalpha ∧
    (amIAClassRun T v s).out = s.out ++ SimpleClass.amIAClass s.boolalpha T v ∧
    (amIAClass2Run T v s).boolalpha = s.boolalpha ∧
    (amIAClass2Run T v s).out = s.out ++ SimpleClass.amIAClass2 s.boolalpha T v ∧
    (nullExampleRun T v s).boolalpha = s.boolalpha ∧
    (nullExampleRun T v s).out = s.out ++ SimpleClass.nullExample T v ∧
    (nullExample2Run T v s).boolalpha = s.boolalpha ∧
    (nullExample2Run T v s).out = s.out ++ SimpleClass.nullExample2 T v ∧
    (helloRun T v s).boolalpha = s.boolalpha ∧
    (helloRun T v s).out = s.out ++ SimpleClass.hello T v ∧
    (cleanerRun T v s).boolalpha = s.boolalpha ∧
    (cleanerRun T v s).out = s.out ++ SimpleClass.cleaner T v ∧
    (anotherRun T v s).boolalpha = s.boolalpha ∧
    (anotherRun T v s).out = s.out ++ SimpleClass.another T v ∧
    (asArgumentRun T v s).boolalpha = s.boolalpha ∧
    (asArgumentRun T v s).out = s.out ++ SimpleClass.asArgument T v ∧
    (asArgumentWithRun T v () s).boolalpha = s.boolalpha ∧
    (asArgumentWithRun T v () s).out = s.out ++ SimpleClass.asArgumentWith T v () := by
  refine ⟨by cases c1; cases c2; rfl, ?_⟩
  exact ⟨rfl, rfl, rfl, rfl, rfl, rfl, rfl, rfl, rfl, rfl,
    rfl, rfl, rfl, rfl, rfl, rfl, rfl, rfl⟩

/-- Claim C10: amIAClass and amIAClass2 agree on every type, value and
stream flag (the ::value and the _v spellings of the predicate are the
same); and for class-like T, asArgument with the gate passed explicitly as
an argument produces the same line as asArgument with the argument
defaulted. -/
theorem C10_value_forms_equivalent (b : Bool) (T : CppType) (v : String) :
    SimpleClass.amIAClass b T v = SimpleClass.amIAClass2 b T v ∧
    (is_class T = true →
      SimpleClass.asArgumentWith T v () = SimpleClass.asArgument T v) :=
  ⟨rfl, fun _ => rfl⟩

/-- Witness for claim C10 at the class-like type std::string with value
Joe and boolalpha set. -/
theorem C10_value_forms_equivalent_witness :
    SimpleClass.amIAClass true CppType.stdString "Joe"
      = SimpleClass.amIAClass2 true CppType.stdString "Joe" ∧
    SimpleClass.asArgumentWith CppType.stdString "Joe" ()
      = SimpleClass.asArgument CppType.stdString "Joe" :=
  ⟨(C10_value_forms_equivalent true CppType.stdString "Joe").1,
   (C10_value_forms_equivalent true CppType.stdString "Joe").2 rfl⟩
